import Mathlib

set_option maxRecDepth 65536

/-!
Verification of the answer-generation core of the KnowledgeScout server
(`src/server.js`).  The JavaScript functions `generateAnswerFromContent`,
`generateContextualAnswer`, `getQuestionType`, `findRelevantContext` and
`generateFallbackAnswer` are embedded shallowly: JS strings become `String`,
JS numbers used for the confidence score become `ℚ` (every literal involved,
0.6/0.7/0.75/0.8/0.95/0.1, and the arithmetic on them is exact), a possibly
`null` document text becomes `Option String`, and a result that is either a
bare string or a `{answer, confidence, sources}` record becomes `QAResult`.
-/

namespace KnowledgeScout

/-- Character class of the JS regex `\s` restricted to ASCII
(space, tab, newline, carriage return, vertical tab, form feed). -/
def isJsWhitespace (c : Char) : Bool :=
  c = ' ' || c = '\t' || c = '\n' || c = '\r' || c = Char.ofNat 11 || c = Char.ofNat 12

/-- Character class of the JS regex `[.!?]` used to end sentences. -/
def isSentenceEnd (c : Char) : Bool :=
  c = '.' || c = '!' || c = '?'

/-- Split a character list at every maximal run of delimiter characters,
mirroring JS `String.prototype.split` on a regex of the form `[...]+`:
a leading delimiter run yields a leading empty segment and a trailing
run yields a trailing empty segment, and the result is never empty. -/
def splitRunsL (p : Char → Bool) : List Char → List (List Char)
  | [] => [[]]
  | c :: rest =>
    if p c then
      match rest with
      | [] => [[], []]
      | d :: _ => if p d then splitRunsL p rest else [] :: splitRunsL p rest
    else
      match splitRunsL p rest with
      | [] => [[c]]
      | seg :: segs => (c :: seg) :: segs

/-- JS `s.split(re)` for a delimiter-class regex, on `String`. -/
def jsSplit (p : Char → Bool) (s : String) : List String :=
  (splitRunsL p s.toList).map String.mk

/-- JS `s.toLowerCase()` (ASCII range, which is all the source relies on). -/
def jsToLower (s : String) : String :=
  String.mk (s.toList.map Char.toLower)

/-- JS `s.trim()`: remove leading and trailing whitespace. -/
def jsTrim (s : String) : String :=
  String.mk (((s.toList.dropWhile isJsWhitespace).reverse.dropWhile isJsWhitespace).reverse)

/-- Does `haystack` start with `needle`? (on character lists). -/
def leadsWith : List Char → List Char → Bool
  | [], _ => true
  | _ :: _, [] => false
  | a :: as, b :: bs => a = b && leadsWith as bs

/-- Does a character list contain `needle` as a contiguous sublist? -/
def hasSubChars (needle : List Char) : List Char → Bool
  | [] => leadsWith needle []
  | c :: rest => leadsWith needle (c :: rest) || hasSubChars needle rest

/-- JS `s.includes(sub)`: substring containment. -/
def strContains (s sub : String) : Bool :=
  hasSubChars sub.toList s.toList

/-- JS `s.startsWith(p)`. -/
def strStartsWith (s p : String) : Bool :=
  leadsWith p.toList s.toList

/-- Result of the answer-generation core: `generateAnswerFromContent` either
returns a bare fallback string (the short-text short-circuit) or a
`{answer, confidence, sources}` record. -/
inductive QAResult where
  | bare (answer : String)
  | record (answer : String) (confidence : ℚ) (sources : List String)
deriving DecidableEq

/-- `getQuestionType` (src/server.js lines 199-208): substring tests on the
lower-cased question, in the order of the source. -/
def getQuestionType (question : String) : String :=
  let lowerQ := jsToLower question
  if strContains lowerQ "what" then "what"
  else if strContains lowerQ "how" then "how"
  else if strContains lowerQ "why" then "why"
  else if strContains lowerQ "when" then "when"
  else if strContains lowerQ "where" then "where"
  else if strContains lowerQ "who" then "who"
  else "general"

/-- The `keywords` object literal of `findRelevantContext`
(src/server.js lines 212-218); `keywords[questionType] || []` becomes the
catch-all `[]` branch (line 220). -/
def keywordsFor (questionType : String) : List String :=
  match questionType with
  | "what" => ["is", "are", "means", "definition", "concept"]
  | "how" => ["process", "method", "steps", "procedure", "works"]
  | "why" => ["because", "reason", "purpose", "benefit", "advantage"]
  | "when" => ["date", "time", "period", "schedule", "timeline"]
  | "where" => ["location", "place", "area", "region", "site"]
  | _ => []

/-- `findRelevantContext` (src/server.js lines 210-231): the for-loop that
returns the first sentence containing a keyword becomes `List.find?`; after
the loop the source returns `sentences[0].trim()` when the list is non-empty
and `null` otherwise. -/
def findRelevantContext (questionType : String) (sentences : List String) : Option String :=
  let relevantKeywords := keywordsFor questionType
  match sentences.find? (fun sentence =>
      relevantKeywords.any (fun keyword => strContains (jsToLower sentence) keyword)) with
  | some sentence => some (jsTrim sentence)
  | none =>
    match sentences with
    | s :: _ => some (jsTrim s)
    | [] => none

/-- The `fallbackAnswers.what` string of `generateFallbackAnswer`
(src/server.js line 235). -/
def fallbackWhat : String :=
  "The document discusses various topics, but I couldn\u0027t find specific information about your question. Could you rephrase or ask about a different aspect?"

/-- The `fallbackAnswers.how` string (src/server.js line 236). -/
def fallbackHow : String :=
  "The methodology isn\u0027t clearly specified in the accessible content. You might want to check specific sections of the document for procedural details."

/-- The `fallbackAnswers.why` string (src/server.js line 237). -/
def fallbackWhy : String :=
  "The reasoning behind this isn\u0027t explicitly stated in the extracted content. The document may contain this information in other sections."

/-- The `fallbackAnswers.general` string (src/server.js line 238). -/
def fallbackGeneral : String :=
  "I\u0027ve reviewed the document content, but couldn\u0027t find specific information addressing your question. The document might cover this topic in sections that weren\u0027t fully processed."

/-- `generateFallbackAnswer` (src/server.js lines 233-243):
`fallbackAnswers[questionType] || fallbackAnswers.general`; the types
"when", "where" and "who" are not keys of the object, so they fall back to
the general string. -/
def generateFallbackAnswer (question : String) : String :=
  match getQuestionType question with
  | "what" => fallbackWhat
  | "how" => fallbackHow
  | "why" => fallbackWhy
  | _ => fallbackGeneral

/-- The sentence list of the core (src/server.js lines 135 and 177, the same
expression in both functions): split the document text on `[.!?]+` and keep
fragments whose trimmed length exceeds 10. -/
def docSentences (documentText : String) : List String :=
  (jsSplit isSentenceEnd documentText).filter (fun s => 10 < (jsTrim s).length)

/-- The `questionWords` of `generateAnswerFromContent` (src/server.js
line 137): lower-case the question, split on whitespace, keep words of
length greater than 3. -/
def significantWords (question : String) : List String :=
  (jsSplit isJsWhitespace (jsToLower question)).filter (fun w => 3 < w.length)

/-- The relevance predicate of `generateAnswerFromContent` (src/server.js
lines 140-143): a sentence is relevant when its lower-casing contains some
significant question word as a substring. -/
def isRelevantTo (question : String) (sentence : String) : Bool :=
  (significantWords question).any (fun word => strContains (jsToLower sentence) word)

/-- The `relevantSentences` list (src/server.js line 140): the sentences,
in document order, that are relevant to the question. -/
def relevantSentencesOf (question documentText : String) : List String :=
  (docSentences documentText).filter (isRelevantTo question)

/-- `generateContextualAnswer` (src/server.js lines 176-197).  The JS
truthiness test `if (relevantContext)` is false for both `null` and the
empty string, hence the `ctx ≠ ""` guard on the `some` branch. -/
def generateContextualAnswer (question documentText : String) : QAResult :=
  let sentences := docSentences documentText
  let questionType := getQuestionType question
  let relevantContext := findRelevantContext questionType sentences
  match relevantContext with
  | some ctx =>
    if ctx ≠ "" then
      QAResult.record ("The document mentions: " ++ ctx) 0.75 ["Relevant Document Section"]
    else
      QAResult.record (generateFallbackAnswer question) 0.6 ["General Document Analysis"]
  | none =>
    QAResult.record (generateFallbackAnswer question) 0.6 ["General Document Analysis"]

/-- `generateAnswerFromContent` (src/server.js lines 130-174).  A `null`
document text is `none`; the guard `!documentText` is also true for the
empty string, hence the `text = ""` disjunct.  The unused local `words`
(line 136) is omitted.  `relevantSentences.slice(1, 3)` is
`(relevantSentences.drop 1).take 2`. -/
def generateAnswerFromContent (question : String) (documentText : Option String) : QAResult :=
  match documentText with
  | none => QAResult.bare (generateFallbackAnswer question)
  | some text =>
    if text = "" ∨ (jsTrim text).length < 50 then
      QAResult.bare (generateFallbackAnswer question)
    else
      let sentences := docSentences text
      let relevantSentences := relevantSentencesOf question text
      if 0 < relevantSentences.length then
        let bestSentence := relevantSentences.headD ""
        let supportingSentences :=
          ((relevantSentences.drop 1).take 2).filter (fun s => s ≠ bestSentence)
        let answer := "Based on the document: " ++ jsTrim bestSentence
        let answer :=
          if 0 < supportingSentences.length then
            answer ++ " Additionally, " ++ String.intercalate " " supportingSentences
          else answer
        QAResult.record answer
          (min (0.7 + (relevantSentences.length : ℚ) * 0.1) 0.95)
          ["Document Content Analysis"]
      else if strContains (jsToLower question) "summary"
          || strContains (jsToLower question) "overview" then
        QAResult.record ("Document summary: " ++ String.intercalate ". " (sentences.take 3))
          0.8 ["Document Introduction"]
      else
        generateContextualAnswer question text

/-- The confidence formula of the relevant-sentences branch
(src/server.js line 157), as a function of the relevant-sentence count. -/
def confFormula (n : ℕ) : ℚ :=
  min (0.7 + (n : ℚ) * 0.1) 0.95

/-- Interpretation of the spec sentence behind C7, as a definition of its
own to compare with `getQuestionType`: classify the question by its leading
interrogative word, the first whitespace token of the lower-cased question
that is one of the six interrogatives. -/
def leadingInterrogativeType (question : String) : String :=
  let tokens := (jsSplit isJsWhitespace (jsToLower question)).filter (fun w => w ≠ "")
  match tokens.find? (fun w =>
      w = "what" || w = "how" || w = "why" || w = "when" || w = "where" || w = "who") with
  | some w => w
  | none => "general"

/-- Priority-ordered restatement of the question classifier: the first
interrogative that occurs as a substring of the lower-cased question. -/
def questionTypeByPriority (question : String) : String :=
  (["what", "how", "why", "when", "where", "who"].find?
      (fun w => strContains (jsToLower question) w)).getD "general"

/-! ### Helper lemmas -/

/-- Decomposition of a list whose filtering starts with `b`: the original
list splits as `pre ++ b :: suf` where nothing in `pre` satisfies the
predicate and `b` does. -/
theorem filter_eq_cons_decomp {α : Type} (p : α → Bool) :
    ∀ (l : List α) (b : α) (rest : List α), l.filter p = b :: rest →
      ∃ l₁ l₂, l = l₁ ++ b :: l₂ ∧ (∀ x ∈ l₁, p x = false) ∧ p b = true := by
  intro l
  induction l with
  | nil => intro b rest h; simp [List.filter] at h
  | cons a l ih =>
    intro b rest h
    by_cases hpa : p a = true
    · rw [List.filter_cons_of_pos hpa] at h
      injection h with h1 h2
      subst h1
      exact ⟨[], l, rfl, fun x hx => absurd hx (List.not_mem_nil x), hpa⟩
    · rw [List.filter_cons_of_neg hpa] at h
      obtain ⟨l₁, l₂, hl, hpre, hb⟩ := ih b rest h
      refine ⟨a :: l₁, l₂, by simp [hl], ?_, hb⟩
      intro x hx
      rcases List.mem_cons.mp hx with rfl | hx₁
      · exact Bool.eq_false_iff.mpr hpa
      · exact hpre x hx₁

/-- Membership in `docSentences` bounds the trimmed length from below. -/
theorem mem_docSentences_trim_length {t s : String} (h : s ∈ docSentences t) :
    10 < (jsTrim s).length := by
  have := (List.mem_filter.mp h).2
  exact of_decide_eq_true this

/-- A usable document text is neither empty nor shorter than 50 trimmed
characters. -/
theorem usable_not_short {t : String} (h50 : 50 ≤ (jsTrim t).length) :
    ¬(t = "" ∨ (jsTrim t).length < 50) := by
  rintro (rfl | hlt)
  · exact absurd h50 (by decide)
  · omega

/-- Reduction of `generateAnswerFromContent` on the relevant-sentences
branch (src/server.js lines 146-160). -/
theorem gA_branch2 (q t : String) (h50 : 50 ≤ (jsTrim t).length)
    (b : String) (rest : List String) (hbr : relevantSentencesOf q t = b :: rest) :
    generateAnswerFromContent q (some t) =
      QAResult.record
        (if 0 < ((rest.take 2).filter (fun s => s ≠ b)).length then
          "Based on the document: " ++ jsTrim b ++ " Additionally, "
            ++ String.intercalate " " ((rest.take 2).filter (fun s => s ≠ b))
         else "Based on the document: " ++ jsTrim b)
        (confFormula (b :: rest).length)
        ["Document Content Analysis"] := by
  simp only [generateAnswerFromContent, hbr, confFormula]
  rw [if_neg (usable_not_short h50)]
  simp [List.length_cons]

/-- Reduction of `generateAnswerFromContent` on the summary branch
(src/server.js lines 163-170). -/
theorem gA_branch3 (q t : String) (h50 : 50 ≤ (jsTrim t).length)
    (hrel : relevantSentencesOf q t = [])
    (hsum : strContains (jsToLower q) "summary" = true
      ∨ strContains (jsToLower q) "overview" = true) :
    generateAnswerFromContent q (some t) =
      QAResult.record ("Document summary: " ++ String.intercalate ". " ((docSentences t).take 3))
        0.8 ["Document Introduction"] := by
  simp only [generateAnswerFromContent, hrel]
  rw [if_neg (usable_not_short h50)]
  have hcond : (strContains (jsToLower q) "summary"
      || strContains (jsToLower q) "overview") = true := by
    rcases hsum with h | h <;> simp [h]
  simp [hcond]

/-- Absence of keyword matches makes the `find?` of `findRelevantContext`
come up empty. -/
theorem findRelevantContext_find?_none (qt : String) (ss : List String)
    (h : ∀ x ∈ ss, ∀ k ∈ keywordsFor qt, strContains (jsToLower x) k = false) :
    ss.find? (fun sentence =>
      (keywordsFor qt).any (fun keyword => strContains (jsToLower sentence) keyword)) = none := by
  rw [List.find?_eq_none]
  intro x hx hany
  obtain ⟨k, hk, hck⟩ := List.any_eq_true.mp hany
  rw [h x hx k hk] at hck
  cases hck

/-- With no keyword match anywhere, `findRelevantContext` on a non-empty
sentence list returns the trimmed first sentence (src/server.js
lines 222-230). -/
theorem findRelevantContext_no_keyword_cons (qt s : String) (rst : List String)
    (h : ∀ x ∈ s :: rst, ∀ k ∈ keywordsFor qt, strContains (jsToLower x) k = false) :
    findRelevantContext qt (s :: rst) = some (jsTrim s) := by
  simp only [findRelevantContext, findRelevantContext_find?_none qt (s :: rst) h]

/-- On a document with no usable sentence, `generateContextualAnswer`
returns the fallback record (src/server.js lines 192-196). -/
theorem gCA_nil (q t : String) (hs : docSentences t = []) :
    generateContextualAnswer q t =
      QAResult.record (generateFallbackAnswer q) 0.6 ["General Document Analysis"] := by
  simp only [generateContextualAnswer, hs, findRelevantContext, List.find?]

/-- With no keyword match and a non-empty sentence list,
`generateContextualAnswer` reports the trimmed first sentence
(src/server.js lines 183-189 with lines 229-230 of `findRelevantContext`). -/
theorem gCA_no_keyword_cons (q t s : String) (rst : List String)
    (hs : docSentences t = s :: rst)
    (h : ∀ x ∈ docSentences t, ∀ k ∈ keywordsFor (getQuestionType q),
      strContains (jsToLower x) k = false) :
    generateContextualAnswer q t =
      QAResult.record ("The document mentions: " ++ jsTrim s) 0.75
        ["Relevant Document Section"] := by
  rw [hs] at h
  have hctx := findRelevantContext_no_keyword_cons (getQuestionType q) s rst h
  have hmem : s ∈ docSentences t := by rw [hs]; exact List.mem_cons_self _ _
  have hlen : 10 < (jsTrim s).length := mem_docSentences_trim_length hmem
  have hne : jsTrim s ≠ "" := by
    intro he
    rw [he] at hlen
    exact absurd hlen (by decide)
  simp only [generateContextualAnswer, hs, hctx]
  rw [if_pos hne]

/-! ### Claims -/

/-- C1 counterexample: the claim fails as stated because it omits the
short-text short-circuit.  The question "elephant" has the significant word
"elephant" (length 8 greater than 4) verbatim inside a sentence of the text
"hello elephant yes sir.", yet the text trims to under 50 characters, so
`generateAnswerFromContent` returns the bare general fallback string, which
is not prefixed with "Based on the document: ". -/
theorem C1_cex :
    "elephant" ∈ significantWords "elephant" ∧ 4 < "elephant".length ∧
    "hello elephant yes sir" ∈ docSentences "hello elephant yes sir." ∧
    strContains (jsToLower "hello elephant yes sir") "elephant" = true ∧
    generateAnswerFromContent "elephant" (some "hello elephant yes sir.") =
      QAResult.bare fallbackGeneral ∧
    strStartsWith fallbackGeneral "Based on the document: " = false :=
  ⟨by decide, by decide, by decide, by decide, by decide, by decide⟩

/-- C1 (amended with the usable-text proviso): for a document text of at
least 50 trimmed characters, if the question contains a significant word of
length greater than 4 that appears verbatim (after lower-casing) inside some
sentence of the document, the result is a record whose answer is prefixed
with "Based on the document: " followed by the trimmed first relevant
sentence `b`, and `b` is that sentence or an earlier-occurring relevant one:
every sentence before `b` is irrelevant and `b` itself is relevant. -/
theorem C1_relevant_prefix_amended (q t w s : String)
    (h50 : 50 ≤ (jsTrim t).length)
    (hw : w ∈ significantWords q) (_hwlen : 4 < w.length)
    (hs : s ∈ docSentences t)
    (hc : strContains (jsToLower s) w = true) :
    ∃ b l₁ l₂ conf srcs tail,
      docSentences t = l₁ ++ b :: l₂ ∧
      (∀ x ∈ l₁, isRelevantTo q x = false) ∧
      isRelevantTo q b = true ∧
      generateAnswerFromContent q (some t) =
        QAResult.record ("Based on the document: " ++ jsTrim b ++ tail) conf srcs := by
  have hrel_s : isRelevantTo q s = true := by
    unfold isRelevantTo
    rw [List.any_eq_true]
    exact ⟨w, hw, hc⟩
  have hmem : s ∈ relevantSentencesOf q t := List.mem_filter.mpr ⟨hs, hrel_s⟩
  obtain ⟨b, rest, hbr⟩ : ∃ b rest, relevantSentencesOf q t = b :: rest := by
    cases hr : relevantSentencesOf q t with
    | nil => rw [hr] at hmem; cases hmem
    | cons b rest => exact ⟨b, rest, rfl⟩
  obtain ⟨l₁, l₂, hdec, hpre, hb⟩ :=
    filter_eq_cons_decomp (isRelevantTo q) (docSentences t) b rest hbr
  have hres := gA_branch2 q t h50 b rest hbr
  by_cases hsup : 0 < ((rest.take 2).filter (fun x => x ≠ b)).length
  · rw [if_pos hsup] at hres
    exact ⟨b, l₁, l₂, confFormula (b :: rest).length, ["Document Content Analysis"],
      " Additionally, " ++ String.intercalate " " ((rest.take 2).filter (fun x => x ≠ b)),
      hdec, hpre, hb, by rw [hres, String.append_assoc]⟩
  · rw [if_neg hsup] at hres
    exact ⟨b, l₁, l₂, confFormula (b :: rest).length, ["Document Content Analysis"], "",
      hdec, hpre, hb, by rw [hres, String.append_empty]⟩

/-- C1 witness: the amended theorem applied to the question "does the
elephant sleep" against a 70-character document whose first sentence
contains "elephant". -/
theorem C1_relevant_prefix_amended_witness :
    ∃ b l₁ l₂ conf srcs tail,
      docSentences "The giant elephant walked across the dusty road to the river at dawn."
        = l₁ ++ b :: l₂ ∧
      (∀ x ∈ l₁, isRelevantTo "does the elephant sleep" x = false) ∧
      isRelevantTo "does the elephant sleep" b = true ∧
      generateAnswerFromContent "does the elephant sleep"
          (some "The giant elephant walked across the dusty road to the river at dawn.") =
        QAResult.record ("Based on the document: " ++ jsTrim b ++ tail) conf srcs :=
  C1_relevant_prefix_amended "does the elephant sleep"
    "The giant elephant walked across the dusty road to the river at dawn."
    "elephant" "The giant elephant walked across the dusty road to the river at dawn"
    (by decide) (by decide) (by decide) (by decide) (by decide)

/-- C2 counterexample: for the question "who is nobody" (type "who", whose
keyword set is empty, so no sentence contains a keyword of the type)
against a one-sentence document, `generateContextualAnswer` does not return
the fallback with confidence 0.6: it returns "The document mentions: " plus
the first sentence with confidence 0.75. -/
theorem C2_cex :
    (∀ x ∈ docSentences "Rain fell on quiet rooftops throughout the long night.",
      ∀ k ∈ keywordsFor (getQuestionType "who is nobody"),
        strContains (jsToLower x) k = false) ∧
    generateContextualAnswer "who is nobody"
        "Rain fell on quiet rooftops throughout the long night."
      = QAResult.record "The document mentions: Rain fell on quiet rooftops throughout the long night"
          0.75 ["Relevant Document Section"] ∧
    (0.75 : ℚ) ≠ 0.6 :=
  ⟨by decide, by rfl, by norm_num⟩

/-- C2 (amended): in the fourth composer branch, when no sentence contains
a keyword of the question type, `generateContextualAnswer` returns the
fallback template with confidence 0.6 only when the candidate sentence list
is empty; when at least one sentence exists it returns "The document
mentions: " plus the trimmed first sentence with confidence 0.75. -/
theorem C2_keyword_fallback_amended (q t : String)
    (h : ∀ x ∈ docSentences t, ∀ k ∈ keywordsFor (getQuestionType q),
      strContains (jsToLower x) k = false) :
    (docSentences t = [] →
      generateContextualAnswer q t =
        QAResult.record (generateFallbackAnswer q) 0.6 ["General Document Analysis"]) ∧
    (∀ s rst, docSentences t = s :: rst →
      generateContextualAnswer q t =
        QAResult.record ("The document mentions: " ++ jsTrim s) 0.75
          ["Relevant Document Section"]) :=
  ⟨fun hs => gCA_nil q t hs, fun s rst hs => gCA_no_keyword_cons q t s rst hs h⟩

/-- C2 witness: the amended theorem applied to the question "who wrote it"
(empty keyword set) and a one-sentence document. -/
theorem C2_keyword_fallback_amended_witness :
    generateContextualAnswer "who wrote it"
        "The meeting happened in the large conference hall yesterday."
      = QAResult.record
          ("The document mentions: "
            ++ jsTrim "The meeting happened in the large conference hall yesterday")
          0.75 ["Relevant Document Section"] :=
  (C2_keyword_fallback_amended "who wrote it"
      "The meeting happened in the large conference hall yesterday." (by decide)).2
    "The meeting happened in the large conference hall yesterday" [] (by decide)

/-- C3 counterexample: on the spec example the answer is produced by the
contextual branch, not the relevant-sentences branch: the only significant
word of the question is "what" ("did", "the", "cat", "sit", "on?" all have
length 3), no sentence contains "what", and the result is "The document
mentions: The cat sat on the mat" with confidence 0.75, which does not
start with "Based on the document: The cat sat on the mat". -/
theorem C3_cex :
    significantWords "What did the cat sit on?" = ["what"] ∧
    generateAnswerFromContent "What did the cat sit on?"
        (some "The cat sat on the mat. It was a sunny day outside.")
      = QAResult.record "The document mentions: The cat sat on the mat" 0.75
          ["Relevant Document Section"] ∧
    strStartsWith "The document mentions: The cat sat on the mat"
      "Based on the document: The cat sat on the mat" = false :=
  ⟨by decide, by rfl, by decide⟩

/-- C3 (amended): for the text "The cat sat on the mat. It was a sunny day
outside." and question "What did the cat sit on?", the answer equals
"The document mentions: The cat sat on the mat" with confidence 0.75 and
source "Relevant Document Section". -/
theorem C3_cat_example_amended :
    generateAnswerFromContent "What did the cat sit on?"
        (some "The cat sat on the mat. It was a sunny day outside.")
      = QAResult.record "The document mentions: The cat sat on the mat" 0.75
          ["Relevant Document Section"] := by
  rfl

/-- C4: for a document text that is null, empty, or shorter than 50
characters after trimming, `generateAnswerFromContent` short-circuits to
the fallback answer for the question type as a bare string, regardless of
the question. -/
theorem C4_short_text_fallback (q : String) (dt : Option String)
    (h : dt = none ∨ ∃ t, dt = some t ∧ (jsTrim t).length < 50) :
    generateAnswerFromContent q dt = QAResult.bare (generateFallbackAnswer q) := by
  rcases h with rfl | ⟨t, rfl, hlt⟩
  · rfl
  · simp only [generateAnswerFromContent]
    rw [if_pos (Or.inr hlt)]

/-- C4 witness: a 15-character document text short-circuits. -/
theorem C4_short_text_fallback_witness :
    generateAnswerFromContent "anything" (some "too short text.") =
      QAResult.bare (generateFallbackAnswer "anything") :=
  C4_short_text_fallback "anything" (some "too short text.")
    (Or.inr ⟨"too short text.", rfl, by decide⟩)

/-- C5 counterexample: the claim omits the short-text short-circuit.  The
question "summary" with the empty document text has no relevant sentences,
yet the result is the bare generic fallback string, not the "Document
summary: " branch. -/
theorem C5_cex :
    strContains (jsToLower "summary") "summary" = true ∧
    relevantSentencesOf "summary" "" = [] ∧
    generateAnswerFromContent "summary" (some "") =
      QAResult.bare (generateFallbackAnswer "summary") ∧
    generateFallbackAnswer "summary" = fallbackGeneral :=
  ⟨by decide, by decide, by rfl, by rfl⟩

/-- C5 (amended with the usable-text proviso): for a document text of at
least 50 trimmed characters, a question containing "summary" or "overview"
with no relevant sentences yields the "Document summary: " record, the
first three sentences joined by ". ", confidence 0.8 and source
"Document Introduction", never the generic fallback. -/
theorem C5_summary_branch_amended (q t : String)
    (h50 : 50 ≤ (jsTrim t).length)
    (hrel : relevantSentencesOf q t = [])
    (hsum : strContains (jsToLower q) "summary" = true
      ∨ strContains (jsToLower q) "overview" = true) :
    generateAnswerFromContent q (some t) =
      QAResult.record
        ("Document summary: " ++ String.intercalate ". " ((docSentences t).take 3))
        0.8 ["Document Introduction"] :=
  gA_branch3 q t h50 hrel hsum

/-- C5 witness: the amended theorem applied to the question
"summary please" against a 69-character document sharing no significant
word with the question. -/
theorem C5_summary_branch_amended_witness :
    generateAnswerFromContent "summary please"
        (some "Rain fell on the quiet rooftops and the garden paths all night long.") =
      QAResult.record
        ("Document summary: " ++ String.intercalate ". "
          ((docSentences "Rain fell on the quiet rooftops and the garden paths all night long.").take 3))
        0.8 ["Document Introduction"] :=
  C5_summary_branch_amended "summary please"
    "Rain fell on the quiet rooftops and the garden paths all night long."
    (by decide) (by decide) (Or.inl (by decide))

/-- C6: in the relevant-sentences branch the confidence equals
min(0.7 + 0.1 x relevantCount, 0.95); the formula is monotonically
non-decreasing in the count and never exceeds 0.95. -/
theorem C6_confidence_formula :
    (∀ q t, 50 ≤ (jsTrim t).length → relevantSentencesOf q t ≠ [] →
      ∃ a srcs, generateAnswerFromContent q (some t) =
        QAResult.record a (confFormula (relevantSentencesOf q t).length) srcs) ∧
    (∀ m n : ℕ, m ≤ n → confFormula m ≤ confFormula n) ∧
    (∀ n : ℕ, confFormula n ≤ 0.95) := by
  refine ⟨?_, ?_, ?_⟩
  · intro q t h50 hne
    cases hr : relevantSentencesOf q t with
    | nil => exact absurd hr hne
    | cons b rest =>
      exact ⟨_, _, gA_branch2 q t h50 b rest hr⟩
  · intro m n hmn
    unfold confFormula
    refine min_le_min ?_ le_rfl
    have hc : (m : ℚ) ≤ n := Nat.cast_le.mpr hmn
    exact add_le_add_left (mul_le_mul_of_nonneg_right hc (by norm_num)) _
  · intro n
    exact min_le_right _ _

/-- C6 witness: the first component applied to a question and document with
exactly one relevant sentence. -/
theorem C6_confidence_formula_witness :
    ∃ a srcs, generateAnswerFromContent "does the elephant sleep"
        (some "The giant elephant walked across the dusty road to the river at dawn.") =
      QAResult.record a
        (confFormula (relevantSentencesOf "does the elephant sleep"
          "The giant elephant walked across the dusty road to the river at dawn.").length)
        srcs :=
  C6_confidence_formula.1 "does the elephant sleep"
    "The giant elephant walked across the dusty road to the river at dawn."
    (by decide) (by decide)

/-- C7 counterexample: the question type is not determined by the leading
interrogative word.  For "how somewhat works" the leading interrogative
word is "how", but `getQuestionType` returns "what" because "somewhat"
contains "what" as a substring and "what" is tested first. -/
theorem C7_cex :
    getQuestionType "how somewhat works" = "what" ∧
    leadingInterrogativeType "how somewhat works" = "how" ∧
    ("what" : String) ≠ "how" :=
  ⟨by decide, by decide, by decide⟩

/-- C7 (amended): the question type is determined by case-insensitive
substring containment over the whole question, tested in the fixed priority
order what, how, why, when, where, who, with "general" when none of the six
occurs. -/
theorem C7_question_type_amended (q : String) :
    getQuestionType q = questionTypeByPriority q := by
  simp only [getQuestionType, questionTypeByPriority]
  cases h1 : strContains (jsToLower q) "what" <;>
  cases h2 : strContains (jsToLower q) "how" <;>
  cases h3 : strContains (jsToLower q) "why" <;>
  cases h4 : strContains (jsToLower q) "when" <;>
  cases h5 : strContains (jsToLower q) "where" <;>
  cases h6 : strContains (jsToLower q) "who" <;>
  simp [List.find?, h1, h2, h3, h4, h5, h6]

/-- C8: the core is total: every pair of inputs, null and empty document
text included, yields some answer; in particular the empty text with
question "anything" yields the bare general fallback. -/
theorem C8_total_no_throw :
    (∀ q dt, ∃ r, generateAnswerFromContent q dt = r) ∧
    generateAnswerFromContent "anything" (some "") = QAResult.bare fallbackGeneral :=
  ⟨fun q dt => ⟨generateAnswerFromContent q dt, rfl⟩, by rfl⟩

/-- C9: `generateAnswerFromContent` is deterministic: identical question
and document-text inputs yield identical outputs. -/
theorem C9_deterministic (q₁ q₂ : String) (d₁ d₂ : Option String)
    (hq : q₁ = q₂) (hd : d₁ = d₂) :
    generateAnswerFromContent q₁ d₁ = generateAnswerFromContent q₂ d₂ := by
  rw [hq, hd]

/-- C9 witness: two invocations on the same concrete inputs agree. -/
theorem C9_deterministic_witness :
    generateAnswerFromContent "anything"
        (some "The cat sat on the mat. It was a sunny day outside.") =
      generateAnswerFromContent "anything"
        (some "The cat sat on the mat. It was a sunny day outside.") :=
  C9_deterministic "anything" "anything"
    (some "The cat sat on the mat. It was a sunny day outside.")
    (some "The cat sat on the mat. It was a sunny day outside.") rfl rfl

/-- C10: `findRelevantContext` never returns null on a non-empty sentence
list; the types "who" and "general" have empty keyword sets; with no
keyword match it returns the trimmed first sentence, so
`generateContextualAnswer` answers "The document mentions: " plus the
trimmed first sentence with confidence 0.75 whenever the document has at
least one sentence of trimmed length over 10. -/
theorem C10_first_sentence_default :
    keywordsFor "who" = [] ∧ keywordsFor "general" = [] ∧
    (∀ qt s rst, ∃ r, findRelevantContext qt (s :: rst) = some r) ∧
    (∀ qt s rst,
      (∀ x ∈ s :: rst, ∀ k ∈ keywordsFor qt, strContains (jsToLower x) k = false) →
      findRelevantContext qt (s :: rst) = some (jsTrim s)) ∧
    (∀ q t s rst, docSentences t = s :: rst →
      (∀ x ∈ docSentences t, ∀ k ∈ keywordsFor (getQuestionType q),
        strContains (jsToLower x) k = false) →
      generateContextualAnswer q t =
        QAResult.record ("The document mentions: " ++ jsTrim s) 0.75
          ["Relevant Document Section"]) := by
  refine ⟨rfl, rfl, ?_, ?_, ?_⟩
  · intro qt s rst
    simp only [findRelevantContext]
    cases hf : (s :: rst).find? (fun sentence =>
        (keywordsFor qt).any (fun keyword => strContains (jsToLower sentence) keyword)) with
    | some x => exact ⟨jsTrim x, rfl⟩
    | none => exact ⟨jsTrim s, rfl⟩
  · intro qt s rst h
    exact findRelevantContext_no_keyword_cons qt s rst h
  · intro q t s rst hs h
    exact gCA_no_keyword_cons q t s rst hs h

/-- C10 witness: the last component applied to the question "who wrote this
report" (type "who", empty keyword set) and a one-sentence document. -/
theorem C10_first_sentence_default_witness :
    generateContextualAnswer "who wrote this report"
        "The committee gathered in the main hall before noon."
      = QAResult.record
          ("The document mentions: "
            ++ jsTrim "The committee gathered in the main hall before noon")
          0.75 ["Relevant Document Section"] :=
  C10_first_sentence_default.2.2.2.2 "who wrote this report"
    "The committee gathered in the main hall before noon."
    "The committee gathered in the main hall before noon" [] (by decide) (by decide)

end KnowledgeScout
